import Mathlib

/-!
Shallow embedding of the membership / role-derivation logic of the
`ClassRoomsController` (file `backend/api/controllers/ClassRoomsController.py`)
of the wild-forge repository, together with theorems checking the
natural-language specification against it.

Database rows (ClassRoom, User, ClassMember, TeamMember) are modelled as Lean
structures, a database state as lists of rows, and each controller action as a
pure function from a database state (plus request data) to a new state and an
HTTP response.
-/

namespace WildForge

/-- Role of a class membership: `ClassMember.role` in the Django model,
with values TEACHER, STUDENT, GUEST. -/
inductive CMRole where
  | TEACHER
  | STUDENT
  | GUEST
deriving DecidableEq, Repr

/-- Status of a class membership: `ClassMember.status`, PENDING or ACCEPTED. -/
inductive CMStatus where
  | PENDING
  | ACCEPTED
deriving DecidableEq, Repr

/-- Role of a team membership: `TeamMember.role`; the controller only
inspects LEADER, other rows have some non-leader role. -/
inductive TMRole where
  | LEADER
  | MEMBER
deriving DecidableEq, Repr

/-- Status of a team membership: `TeamMember.status`, PENDING or ACCEPTED. -/
inductive TMStatus where
  | PENDING
  | ACCEPTED
deriving DecidableEq, Repr

/-- A row of the User table, with the fields the controller reads. -/
structure User where
  id : Nat
  email : String
  first_name : String
  last_name : String
  is_superuser : Bool
deriving DecidableEq, Repr

/-- A row of the ClassRoom table: id, unique join key `class_code`, the
descriptive fields, and the many-to-many `invited_users` relation stored as
the list of invited user ids. -/
structure ClassRoom where
  id : Nat
  class_code : String
  course_name : String
  sections : String
  schedule : String
  invited_users : List Nat
deriving DecidableEq, Repr

/-- A row of the ClassMember table linking a user to a classroom under a
role and a status. -/
structure ClassMember where
  id : Nat
  user_id : Nat
  class_id : Nat
  role : CMRole
  status : CMStatus
deriving DecidableEq, Repr

/-- A row of the TeamMember table linking a class member to a team under a
role and a status. -/
structure TeamMember where
  id : Nat
  class_member_id : Nat
  team_id : Nat
  role : TMRole
  status : TMStatus
deriving DecidableEq, Repr

/-- A database state: the four tables the controller touches, plus the
auto-increment counters for freshly inserted rows. -/
structure DB where
  users : List User
  classrooms : List ClassRoom
  class_members : List ClassMember
  team_members : List TeamMember
  next_classroom_id : Nat
  next_class_member_id : Nat
deriving DecidableEq, Repr

/-- The TeamMember rows correlated with a given class member:
`TeamMember.objects.filter(class_member_id_id=...)`. -/
def memberTeamRows (db : DB) (cmId : Nat) : List TeamMember :=
  db.team_members.filter (fun t => decide (t.class_member_id = cmId))

/-- The `nonleaders` queryset (ClassRoomsController.nonleaders, lines
278-291): class members of the classroom with role STUDENT and status
ACCEPTED, annotated with a correlated subquery picking a PENDING TeamMember
status when one exists, then filtered by
`Q(teammember__isnull=True) | Q(teammember_status=TeamMember.PENDING)`.
The disjunction joins against the member's TeamMember rows, so a member kept
through the second disjunct is emitted once per joined TeamMember row. -/
def nonleaders (db : DB) (classId : Nat) : List ClassMember :=
  (db.class_members.filter (fun m =>
      decide (m.class_id = classId ∧ m.role = CMRole.STUDENT ∧
        m.status = CMStatus.ACCEPTED))).flatMap (fun m =>
    if memberTeamRows db m.id = [] then [m]
    else if (memberTeamRows db m.id).any
        (fun t => t.status == TMStatus.PENDING) then
      (memberTeamRows db m.id).map (fun _ => m)
    else [])

/-- The `leaders` queryset (ClassRoomsController.leaders, lines 328-341):
class members of the classroom with role STUDENT (no status filter),
annotated with a correlated subquery over TeamMember rows with role LEADER
and status ACCEPTED, then filtered by
`Q(teammember_status=TeamMember.ACCEPTED)`; the single-valued subquery
produces no join duplication. -/
def leaders (db : DB) (classId : Nat) : List ClassMember :=
  (db.class_members.filter (fun m =>
      decide (m.class_id = classId ∧ m.role = CMRole.STUDENT))).filter
    (fun m => (memberTeamRows db m.id).any
      (fun t => t.role == TMRole.LEADER && t.status == TMStatus.ACCEPTED))

/-- Request body of POST /classes. The descriptive classroom fields come from
the request; `valid` is modelled from the spec: the serializer layer
(`ClassRoomSerializer`, code not in this repository slice) validates the
request and `super().create` answers 400 on invalid input, before any row
is written. -/
structure CreateClassRequest where
  class_code : String
  course_name : String
  sections : String
  schedule : String
  valid : Bool
deriving DecidableEq, Repr

/-- The `create` action (ClassRoomsController.create, lines 56-72):
`super().create` inserts the classroom and answers 201, then a ClassMember
row is inserted linking the requesting user to the new classroom with role
TEACHER and status ACCEPTED. Returns the new database state and the HTTP
status code. -/
def createClass (db : DB) (userId : Nat) (req : CreateClassRequest) :
    DB × Nat :=
  if req.valid then
    let newClass : ClassRoom :=
      { id := db.next_classroom_id, class_code := req.class_code,
        course_name := req.course_name, sections := req.sections,
        schedule := req.schedule, invited_users := [] }
    let db1 := { db with
      classrooms := db.classrooms ++ [newClass]
      next_classroom_id := db.next_classroom_id + 1 }
    let newMember : ClassMember :=
      { id := db.next_class_member_id, user_id := userId,
        class_id := newClass.id, role := CMRole.TEACHER,
        status := CMStatus.ACCEPTED }
    ({ db1 with
       class_members := db1.class_members ++ [newMember]
       next_class_member_id := db.next_class_member_id + 1 }, 201)
  else (db, 400)

/-- The queryset
`ClassMember.objects.filter(user_id=request.user, class_id__class_code=class_code)`:
membership rows of the user joined against a classroom row carrying the
given class code. -/
def memberRowsForCode (db : DB) (userId : Nat) (code : String) :
    List ClassMember :=
  db.class_members.filter (fun m =>
    decide (m.user_id = userId ∧
      ∃ c ∈ db.classrooms, c.id = m.class_id ∧ c.class_code = code))

/-- The queryset behind `ClassRoom.objects.get(class_code=class_code)`:
all classroom rows carrying the code. `get` succeeds exactly when this
list is a singleton. -/
def classroomsWithCode (db : DB) (code : String) : List ClassRoom :=
  db.classrooms.filter (fun c => decide (c.class_code = code))

/-- The `join` action (ClassRoomsController.join, lines 239-260): if the
user already has a membership row for a classroom with the code, answer 200
without touching the database; otherwise fetch the classroom by code
(no row: DoesNotExist caught, 400; several rows: MultipleObjectsReturned
escapes the handler, 500) and insert a STUDENT/PENDING ClassMember row. -/
def join (db : DB) (userId : Nat) (code : String) : DB × Nat :=
  if memberRowsForCode db userId code ≠ [] then (db, 200)
  else
    match classroomsWithCode db code with
    | [] => (db, 400)
    | [c] =>
      let m : ClassMember :=
        { id := db.next_class_member_id, user_id := userId, class_id := c.id,
          role := CMRole.STUDENT, status := CMStatus.PENDING }
      ({ db with
         class_members := db.class_members ++ [m]
         next_class_member_id := db.next_class_member_id + 1 }, 200)
    | _ => (db, 500)

/-- Role selection of `join_class_as_guest` (lines 486-492): the request
field `user_role` defaults to 3 when absent; 1 gives TEACHER, 2 gives
STUDENT, anything else gives GUEST. -/
def guestRole (userRole : Option Int) : CMRole :=
  let number := userRole.getD 3
  if number = 1 then CMRole.TEACHER
  else if number = 2 then CMRole.STUDENT
  else CMRole.GUEST

/-- The `join_class_as_guest` action (lines 469-506): a falsy class code
answers 400; an existing membership row answers 200 without mutation;
otherwise the classroom is fetched by code (DoesNotExist: 400, several
rows: generic handler, 500) and a PENDING ClassMember row is inserted with
the role selected by `guestRole`. -/
def join_class_as_guest (db : DB) (userId : Nat) (code : String)
    (userRole : Option Int) : DB × Nat :=
  if code = "" then (db, 400)
  else if memberRowsForCode db userId code ≠ [] then (db, 200)
  else
    match classroomsWithCode db code with
    | [] => (db, 400)
    | [c] =>
      let m : ClassMember :=
        { id := db.next_class_member_id, user_id := userId, class_id := c.id,
          role := guestRole userRole, status := CMStatus.PENDING }
      ({ db with
         class_members := db.class_members ++ [m]
         next_class_member_id := db.next_class_member_id + 1 }, 200)
    | _ => (db, 500)

/-- The classroom queryset of the `list` action (lines 91-103): all
classrooms for a superuser, otherwise
`ClassRoom.objects.filter(classmember__user_id=request.user, classmember__status=ClassMember.ACCEPTED)` —
a join emitting one classroom copy per matching ACCEPTED membership row. -/
def listClasses (db : DB) (u : User) : List ClassRoom :=
  if u.is_superuser then db.classrooms
  else
    db.classrooms.flatMap (fun c =>
      (db.class_members.filter (fun m =>
          decide (m.user_id = u.id ∧ m.class_id = c.id ∧
            m.status = CMStatus.ACCEPTED))).map (fun _ => c))

/-- The subquery of `get_invited_classes` (line 446):
`ClassMember.objects.filter(user_id=user, status=ClassMember.ACCEPTED).values_list('class_id', flat=True)`. -/
def acceptedClassIds (db : DB) (userId : Nat) : List Nat :=
  (db.class_members.filter (fun m =>
    decide (m.user_id = userId ∧ m.status = CMStatus.ACCEPTED))).map
      (fun m => m.class_id)

/-- The queryset of `get_invited_classes` (lines 443-447): classrooms whose
`invited_users` relation contains the user, excluding those whose id occurs
among the user's ACCEPTED membership class ids. -/
def invitedNotMember (db : DB) (userId : Nat) : List ClassRoom :=
  db.classrooms.filter (fun c =>
    decide (userId ∈ c.invited_users ∧ c.id ∉ acceptedClassIds db userId))

/-- The `get_invited_classes` action (lines 431-455): missing email answers
400; unknown email answers 404 (User.DoesNotExist); several users with the
email make `User.objects.get` escape with 500; an empty invited-but-not-member
queryset answers 404, a non-empty one answers 200 with its classrooms. -/
def get_invited_classes (db : DB) (email : String) : Nat × List ClassRoom :=
  if email = "" then (400, [])
  else
    match db.users.filter (fun x => decide (x.email = email)) with
    | [] => (404, [])
    | [u] =>
      let invited := invitedNotMember db u.id
      if invited = [] then (404, []) else (200, invited)
    | _ => (500, [])

/-- Exceptions that the bodies of `leaders` and `nonleaders` can raise:
the two row-not-found exception classes named in their `except` clauses,
and any other exception (caught by the final `except Exception`). -/
inductive QueryExc where
  | classRoomDoesNotExist
  | classMemberDoesNotExist
  | other (msg : String)
deriving DecidableEq, Repr

/-- An HTTP response as the two actions shape it: a status code and a body
(the serialized member list on success, a generic detail string on error). -/
structure HttpResponse where
  statusCode : Nat
  body : String
deriving DecidableEq, Repr

/-- The try/except structure of `nonleaders` (lines 275-310): a normal body
result answers 200, `ClassRoom.DoesNotExist` and `ClassMember.DoesNotExist`
answer 404 with a generic detail, and every other exception answers 500. -/
def nonleadersRespond (run : Except QueryExc String) : HttpResponse :=
  match run with
  | Except.ok body => ⟨200, body⟩
  | Except.error QueryExc.classRoomDoesNotExist => ⟨404, "Classroom not found"⟩
  | Except.error QueryExc.classMemberDoesNotExist => ⟨404, "Class member not found"⟩
  | Except.error (QueryExc.other _) => ⟨500, "Internal Server Error"⟩

/-- The try/except structure of `leaders` (lines 324-360), identical to the
one of `nonleaders`. -/
def leadersRespond (run : Except QueryExc String) : HttpResponse :=
  match run with
  | Except.ok body => ⟨200, body⟩
  | Except.error QueryExc.classRoomDoesNotExist => ⟨404, "Classroom not found"⟩
  | Except.error QueryExc.classMemberDoesNotExist => ⟨404, "Class member not found"⟩
  | Except.error (QueryExc.other _) => ⟨500, "Internal Server Error"⟩

/-- Whether the latest-inserted TeamMember row of a class member has status
PENDING. Written after the spec's words "whose most recent TeamMember
status is PENDING", reading "most recent" as the last row in insertion
order; used only to compare the spec's description with the code. -/
def mostRecentStatusIsPending (db : DB) (cmId : Nat) : Bool :=
  match (memberTeamRows db cmId).getLast? with
  | none => false
  | some t => t.status == TMStatus.PENDING

/-- The nonleaders condition exactly as the spec words it: no TeamMember
row at all, or the most recent TeamMember row has status PENDING. -/
def specNonleaderCond (db : DB) (m : ClassMember) : Bool :=
  decide (memberTeamRows db m.id = []) || mostRecentStatusIsPending db m.id

/-- Characterisation of membership in the `leaders` result as a proposition
over the database state. -/
theorem mem_leaders_iff (db : DB) (classId : Nat) (m : ClassMember) :
    m ∈ leaders db classId ↔
      m ∈ db.class_members ∧ m.class_id = classId ∧ m.role = CMRole.STUDENT ∧
        ∃ t ∈ db.team_members, t.class_member_id = m.id ∧
          t.role = TMRole.LEADER ∧ t.status = TMStatus.ACCEPTED := by
  simp only [leaders, memberTeamRows, List.mem_filter, List.any_eq_true,
    decide_eq_true_eq, Bool.and_eq_true, beq_iff_eq]
  tauto

/-- Characterisation of membership in the `nonleaders` result as a
proposition over the database state: the kept members are the
STUDENT/ACCEPTED members of the classroom that have no TeamMember row at
all or have some TeamMember row with status PENDING. -/
theorem mem_nonleaders_iff (db : DB) (classId : Nat) (m : ClassMember) :
    m ∈ nonleaders db classId ↔
      m ∈ db.class_members ∧ m.class_id = classId ∧ m.role = CMRole.STUDENT ∧
        m.status = CMStatus.ACCEPTED ∧
        (memberTeamRows db m.id = [] ∨
          ∃ t ∈ db.team_members, t.class_member_id = m.id ∧
            t.status = TMStatus.PENDING) := by
  simp only [nonleaders, List.mem_flatMap, List.mem_filter, decide_eq_true_eq]
  constructor
  · rintro ⟨a, ⟨ha, hc, hr, hs⟩, hm⟩
    split_ifs at hm with h1 h2
    · simp only [List.mem_singleton] at hm
      subst hm
      exact ⟨ha, hc, hr, hs, Or.inl h1⟩
    · simp only [List.mem_map] at hm
      obtain ⟨t, ht, rfl⟩ := hm
      rw [List.any_eq_true] at h2
      obtain ⟨t', ht', hp⟩ := h2
      rw [beq_iff_eq] at hp
      simp only [memberTeamRows, List.mem_filter, decide_eq_true_eq] at ht'
      exact ⟨ha, hc, hr, hs, Or.inr ⟨t', ht'.1, ht'.2, hp⟩⟩
    · exact absurd hm (by simp)
  · rintro ⟨hm, hc, hr, hs, hcase⟩
    refine ⟨m, ⟨hm, hc, hr, hs⟩, ?_⟩
    rcases hcase with he | ⟨t, ht, hcm, hp⟩
    · simp [he]
    · have htm : t ∈ memberTeamRows db m.id := by
        simp [memberTeamRows, List.mem_filter, ht, hcm]
      have hne : memberTeamRows db m.id ≠ [] := List.ne_nil_of_mem htm
      have hany : (memberTeamRows db m.id).any
          (fun t => t.status == TMStatus.PENDING) = true :=
        List.any_eq_true.mpr ⟨t, htm, by simp [hp]⟩
      rw [if_neg hne, if_pos hany]
      simp only [List.mem_map]
      exact ⟨t, htm, trivial⟩

/-- C1: every create-classroom request that succeeds with 201 appends
exactly one classroom row and exactly one ClassMember row, and that
membership links the requesting user to the newly created classroom with
role TEACHER and status ACCEPTED; no other membership row is created. -/
theorem create_class_adds_single_teacher_membership (db : DB) (userId : Nat)
    (req : CreateClassRequest) (h : (createClass db userId req).2 = 201) :
    ∃ c : ClassRoom,
      (createClass db userId req).1.classrooms = db.classrooms ++ [c] ∧
      (createClass db userId req).1.class_members = db.class_members ++
        [{ id := db.next_class_member_id, user_id := userId, class_id := c.id,
           role := CMRole.TEACHER, status := CMStatus.ACCEPTED }] := by
  by_cases hv : req.valid
  · simp only [createClass, hv, if_true]
    exact ⟨_, rfl, rfl⟩
  · simp [createClass, hv] at h

/-- C2: the join operation is idempotent on membership state: an existing
membership row for (user, classroom with the code) makes join answer 200
without mutation; with no such row and a unique classroom carrying the
code, join inserts exactly one STUDENT/PENDING membership row; and running
join twice in a row leaves the same database state as running it once. -/
theorem join_membership_idempotent (db : DB) (userId : Nat) (code : String) :
    (memberRowsForCode db userId code ≠ [] →
      join db userId code = (db, 200)) ∧
    (memberRowsForCode db userId code = [] →
      ∀ c, classroomsWithCode db code = [c] →
        join db userId code =
          ({ db with
             class_members := db.class_members ++
               [{ id := db.next_class_member_id, user_id := userId,
                  class_id := c.id, role := CMRole.STUDENT,
                  status := CMStatus.PENDING }]
             next_class_member_id := db.next_class_member_id + 1 }, 200)) ∧
    (join (join db userId code).1 userId code).1 = (join db userId code).1 := by
  refine ⟨fun h => by simp [join, h], fun h c hc => by simp [join, h, hc], ?_⟩
  rcases eq_or_ne (memberRowsForCode db userId code) [] with h | h
  · cases hc : classroomsWithCode db code with
    | nil => simp [join, h, hc]
    | cons c rest =>
      cases rest with
      | cons c2 rest2 => simp [join, h, hc]
      | nil =>
        have hcmem : c ∈ db.classrooms ∧ c.class_code = code := by
          have hcm : c ∈ classroomsWithCode db code := by
            rw [hc]; exact List.mem_singleton_self c
          simpa [classroomsWithCode, List.mem_filter] using hcm
        simp only [join, h, hc, ne_eq, not_true_eq_false, if_false,
          not_false_eq_true, if_true]
        have hmem : memberRowsForCode
            { db with
              class_members := db.class_members ++
                [{ id := db.next_class_member_id, user_id := userId,
                   class_id := c.id, role := CMRole.STUDENT,
                   status := CMStatus.PENDING }]
              next_class_member_id := db.next_class_member_id + 1 }
            userId code ≠ [] := by
          apply List.ne_nil_of_mem
            (a := { id := db.next_class_member_id, user_id := userId,
                    class_id := c.id, role := CMRole.STUDENT,
                    status := CMStatus.PENDING })
          rw [memberRowsForCode, List.mem_filter]
          refine ⟨by simp, ?_⟩
          rw [decide_eq_true_eq]
          exact ⟨rfl, c, hcmem.1, rfl, hcmem.2⟩
        simp [join, hmem, h, hc]
  · simp [join, h]

/-- Two members of a list of length at most one are equal. -/
theorem eq_of_mem_of_length_le_one {α : Type} {l : List α} (h : l.length ≤ 1)
    {a b : α} (ha : a ∈ l) (hb : b ∈ l) : a = b := by
  cases l with
  | nil => cases ha
  | cons x xs =>
    cases xs with
    | nil =>
      rw [List.mem_singleton] at ha hb
      rw [ha, hb]
    | cons y ys => simp at h

/-- A classroom with one STUDENT/ACCEPTED member whose single TeamMember
row is a non-leader ACCEPTED row: the member is listed by neither
`leaders` nor `nonleaders`. -/
def cexMemberC3 : ClassMember :=
  { id := 1, user_id := 10, class_id := 1, role := CMRole.STUDENT,
    status := CMStatus.ACCEPTED }

/-- Database state for the partition counterexample: one classroom, one
STUDENT/ACCEPTED member, one ACCEPTED non-leader TeamMember row. -/
def cexDbC3 : DB :=
  { users := [{ id := 10, email := "a@x.y", first_name := "A",
                last_name := "B", is_superuser := false }]
    classrooms := [{ id := 1, class_code := "c1", course_name := "CS",
                     sections := "A", schedule := "MWF", invited_users := [] }]
    class_members := [cexMemberC3]
    team_members := [{ id := 1, class_member_id := 1, team_id := 5,
                       role := TMRole.MEMBER, status := TMStatus.ACCEPTED }]
    next_classroom_id := 2
    next_class_member_id := 2 }

/-- C3 counterexample: in a non-ambiguous dataset (every member has at most
one TeamMember row), a STUDENT member of the classroom is returned by
neither `leaders` nor `nonleaders`, so the two lists do not cover the
classroom's STUDENT members and are not a partition. -/
theorem leaders_nonleaders_not_partition :
    (∀ x ∈ cexDbC3.class_members,
      (memberTeamRows cexDbC3 x.id).length ≤ 1) ∧
    cexMemberC3 ∈ cexDbC3.class_members ∧ cexMemberC3.class_id = 1 ∧
    cexMemberC3.role = CMRole.STUDENT ∧
    cexMemberC3 ∉ leaders cexDbC3 1 ∧ cexMemberC3 ∉ nonleaders cexDbC3 1 := by
  decide

/-- C3 amended: in a non-ambiguous dataset the two lists are disjoint — no
member is returned by both `leaders` and `nonleaders` — though they need
not cover every STUDENT member. -/
theorem leaders_nonleaders_disjoint (db : DB) (classId : Nat)
    (m : ClassMember)
    (h : ∀ x ∈ db.class_members, (memberTeamRows db x.id).length ≤ 1) :
    ¬ (m ∈ leaders db classId ∧ m ∈ nonleaders db classId) := by
  rintro ⟨hl, hn⟩
  rw [mem_leaders_iff] at hl
  rw [mem_nonleaders_iff] at hn
  obtain ⟨hm, -, -, t, ht, hcm, hrole, hst⟩ := hl
  obtain ⟨-, -, -, -, hcase⟩ := hn
  have htm : t ∈ memberTeamRows db m.id := by
    simp [memberTeamRows, List.mem_filter, ht, hcm]
  rcases hcase with he | ⟨t', ht', hcm', hp⟩
  · rw [he] at htm
    cases htm
  · have htm' : t' ∈ memberTeamRows db m.id := by
      simp [memberTeamRows, List.mem_filter, ht', hcm']
    have hsame : t = t' := eq_of_mem_of_length_le_one (h m hm) htm htm'
    rw [← hsame, hst] at hp
    exact absurd hp (by decide)

/-- Witness for the disjointness theorem at the counterexample dataset. -/
theorem leaders_nonleaders_disjoint_witness :
    ¬ (cexMemberC3 ∈ leaders cexDbC3 1 ∧ cexMemberC3 ∈ nonleaders cexDbC3 1) :=
  leaders_nonleaders_disjoint cexDbC3 1 cexMemberC3 (by decide)

/-- A member with two TeamMember rows, the older one PENDING and the most
recent one ACCEPTED: `nonleaders` keeps the member although the most
recent row is not PENDING. -/
def cexMemberC4 : ClassMember :=
  { id := 1, user_id := 11, class_id := 1, role := CMRole.STUDENT,
    status := CMStatus.ACCEPTED }

/-- Database state for the most-recent-row counterexample. -/
def cexDbC4 : DB :=
  { users := [{ id := 11, email := "b@x.y", first_name := "B",
                last_name := "C", is_superuser := false }]
    classrooms := [{ id := 1, class_code := "c2", course_name := "CS",
                     sections := "A", schedule := "TTh", invited_users := [] }]
    class_members := [cexMemberC4]
    team_members := [{ id := 1, class_member_id := 1, team_id := 5,
                       role := TMRole.MEMBER, status := TMStatus.PENDING },
                     { id := 2, class_member_id := 1, team_id := 5,
                       role := TMRole.MEMBER, status := TMStatus.ACCEPTED }]
    next_classroom_id := 2
    next_class_member_id := 2 }

/-- C4 counterexample: a STUDENT/ACCEPTED member whose most recent
TeamMember row has status ACCEPTED (only an older row is PENDING) is still
returned by `nonleaders`, against the spec's most-recent-row condition. -/
theorem nonleaders_not_most_recent_cex :
    cexMemberC4 ∈ nonleaders cexDbC4 1 ∧
    specNonleaderCond cexDbC4 cexMemberC4 = false ∧
    cexMemberC4.role = CMRole.STUDENT ∧
    cexMemberC4.status = CMStatus.ACCEPTED := by
  decide

/-- C4 amended: `nonleaders` returns exactly the STUDENT/ACCEPTED members
of the classroom that either have no TeamMember row at all or have at
least one TeamMember row (not necessarily the most recent) with status
PENDING. -/
theorem nonleaders_exactly_teamless_or_pending (db : DB) (classId : Nat)
    (m : ClassMember) :
    m ∈ nonleaders db classId ↔
      m ∈ db.class_members ∧ m.class_id = classId ∧ m.role = CMRole.STUDENT ∧
        m.status = CMStatus.ACCEPTED ∧
        (memberTeamRows db m.id = [] ∨
          ∃ t ∈ db.team_members, t.class_member_id = m.id ∧
            t.status = TMStatus.PENDING) :=
  mem_nonleaders_iff db classId m

/-- C5: `leaders` returns exactly the STUDENT members of the classroom for
whom some correlated TeamMember row has role LEADER and status
ACCEPTED. -/
theorem leaders_exactly_students_with_accepted_leader_row (db : DB)
    (classId : Nat) (m : ClassMember) :
    m ∈ leaders db classId ↔
      m ∈ db.class_members ∧ m.class_id = classId ∧ m.role = CMRole.STUDENT ∧
        ∃ t ∈ db.team_members, t.class_member_id = m.id ∧
          t.role = TMRole.LEADER ∧ t.status = TMStatus.ACCEPTED :=
  mem_leaders_iff db classId m

/-- C6: with a valid class code, `join_class_as_guest` answers 200 without
mutation when a membership row already exists, and otherwise inserts
exactly one PENDING membership row whose role is selected solely by the
request-supplied `user_role` value: 1 gives TEACHER, 2 gives STUDENT, and
every other value, an absent field included, gives GUEST. -/
theorem join_class_as_guest_role_selection (db : DB) (userId : Nat)
    (code : String) (userRole : Option Int) (c : ClassRoom)
    (hcode : code ≠ "") (hc : classroomsWithCode db code = [c]) :
    (memberRowsForCode db userId code ≠ [] →
      join_class_as_guest db userId code userRole = (db, 200)) ∧
    (memberRowsForCode db userId code = [] →
      join_class_as_guest db userId code userRole =
        ({ db with
           class_members := db.class_members ++
             [{ id := db.next_class_member_id, user_id := userId,
                class_id := c.id, role := guestRole userRole,
                status := CMStatus.PENDING }]
           next_class_member_id := db.next_class_member_id + 1 }, 200)) ∧
    guestRole (some 1) = CMRole.TEACHER ∧
    guestRole (some 2) = CMRole.STUDENT ∧
    guestRole none = CMRole.GUEST ∧
    (∀ k : Option Int, k ≠ some 1 → k ≠ some 2 →
      guestRole k = CMRole.GUEST) := by
  refine ⟨fun h => by simp [join_class_as_guest, hcode, h],
    fun h => by simp [join_class_as_guest, hcode, h, hc],
    by decide, by decide, by decide, ?_⟩
  intro k h1 h2
  cases k with
  | none => decide
  | some v =>
    have hv1 : v ≠ 1 := fun hv => h1 (by rw [hv])
    have hv2 : v ≠ 2 := fun hv => h2 (by rw [hv])
    simp [guestRole, hv1, hv2]

/-- Reduction of `get_invited_classes` for a known unique user with the
given email: the action answers 404 on an empty invited-but-not-member
queryset and 200 with that queryset otherwise. -/
theorem get_invited_classes_eq (db : DB) (email : String) (u : User)
    (hne : email ≠ "")
    (hu : db.users.filter (fun x => decide (x.email = email)) = [u]) :
    get_invited_classes db email =
      if invitedNotMember db u.id = [] then (404, [])
      else (200, invitedNotMember db u.id) := by
  rw [get_invited_classes, if_neg hne, hu]

/-- C7: for a user identified by email, the classrooms returned by
`get_invited_classes` are exactly the set difference: classrooms whose
invited_users relation contains the user, minus classrooms where the user
has an ACCEPTED membership row; a classroom where the user's membership is
merely PENDING stays in the difference. -/
theorem get_invited_classes_set_diff (db : DB) (email : String) (u : User)
    (hne : email ≠ "")
    (hu : db.users.filter (fun x => decide (x.email = email)) = [u]) :
    (get_invited_classes db email).2 = invitedNotMember db u.id ∧
    (∀ c : ClassRoom, c ∈ invitedNotMember db u.id ↔
      c ∈ db.classrooms ∧ u.id ∈ c.invited_users ∧
        ¬ ∃ m ∈ db.class_members, m.user_id = u.id ∧ m.class_id = c.id ∧
          m.status = CMStatus.ACCEPTED) := by
  constructor
  · rw [get_invited_classes_eq db email u hne hu]
    by_cases he : invitedNotMember db u.id = []
    · rw [if_pos he, he]
    · rw [if_neg he]
  · intro c
    simp only [invitedNotMember, List.mem_filter, decide_eq_true_eq,
      acceptedClassIds, List.mem_map, List.mem_filter]
    constructor
    · rintro ⟨hc, hinv, hnot⟩
      refine ⟨hc, hinv, ?_⟩
      rintro ⟨m, hm, hmu, hmc, hms⟩
      exact hnot ⟨m, ⟨hm, hmu, hms⟩, hmc⟩
    · rintro ⟨hc, hinv, hnot⟩
      refine ⟨hc, hinv, ?_⟩
      rintro ⟨m, ⟨hm, hmu, hms⟩, hmc⟩
      exact hnot ⟨m, hm, hmu, hmc, hms⟩

/-- C8: the try/except structure of `leaders` and `nonleaders` is total:
every outcome, exceptional outcomes included, is mapped to a response with
status 200, 404 or 500; both actions map exceptions identically, and every
exception gives 404 or 500. -/
theorem leaders_nonleaders_exception_mapping (run : Except QueryExc String) :
    ((nonleadersRespond run).statusCode = 200 ∨
      (nonleadersRespond run).statusCode = 404 ∨
      (nonleadersRespond run).statusCode = 500) ∧
    leadersRespond run = nonleadersRespond run ∧
    (∀ e : QueryExc, run = Except.error e →
      ((nonleadersRespond run).statusCode = 404 ∨
        (nonleadersRespond run).statusCode = 500) ∧
      ((leadersRespond run).statusCode = 404 ∨
        (leadersRespond run).statusCode = 500)) := by
  rcases run with e | b
  · rcases e with _ | _ | msg <;> simp [nonleadersRespond, leadersRespond]
  · simp [nonleadersRespond, leadersRespond]

/-- C9: the `list` action returns all classrooms to a superuser, and to any
other user exactly the classrooms where that user has an ACCEPTED
membership row — classrooms where the membership is still PENDING are
excluded. -/
theorem list_classes_membership (db : DB) (u : User) (c : ClassRoom) :
    (u.is_superuser = false →
      (c ∈ listClasses db u ↔ c ∈ db.classrooms ∧
        ∃ m ∈ db.class_members, m.user_id = u.id ∧ m.class_id = c.id ∧
          m.status = CMStatus.ACCEPTED)) ∧
    (u.is_superuser = true → listClasses db u = db.classrooms) := by
  constructor
  · intro hs
    simp only [listClasses, hs, Bool.false_eq_true, if_false,
      List.mem_flatMap]
    constructor
    · rintro ⟨a, ha, hm⟩
      simp only [List.mem_map, List.mem_filter, decide_eq_true_eq] at hm
      obtain ⟨x, ⟨hx, hxu, hxc, hxs⟩, rfl⟩ := hm
      exact ⟨ha, x, hx, hxu, hxc, hxs⟩
    · rintro ⟨hc, m, hm, hmu, hmc, hms⟩
      refine ⟨c, hc, ?_⟩
      simp only [List.mem_map, List.mem_filter, decide_eq_true_eq]
      exact ⟨m, ⟨hm, hmu, hmc, hms⟩, trivial⟩
  · intro hs
    simp [listClasses, hs]

/-- C10: for a user identified by email whose invited-but-not-member set is
empty, `get_invited_classes` answers 404, and it answers 200 exactly when
that set is non-empty. -/
theorem get_invited_classes_empty_is_404 (db : DB) (email : String)
    (u : User) (hne : email ≠ "")
    (hu : db.users.filter (fun x => decide (x.email = email)) = [u]) :
    ((get_invited_classes db email).1 = 200 ↔
      invitedNotMember db u.id ≠ []) ∧
    (invitedNotMember db u.id = [] →
      (get_invited_classes db email).1 = 404) := by
  rw [get_invited_classes_eq db email u hne hu]
  by_cases he : invitedNotMember db u.id = [] <;> simp [he]

/-- An empty database state used to exercise classroom creation. -/
def dbC1 : DB :=
  { users := [{ id := 7, email := "t@x.y", first_name := "T"
                last_name := "U", is_superuser := false }]
    classrooms := []
    class_members := []
    team_members := []
    next_classroom_id := 1
    next_class_member_id := 1 }

/-- A concrete valid create-classroom request. -/
def reqC1 : CreateClassRequest :=
  { class_code := "cc", course_name := "CS", sections := "A"
    schedule := "MWF", valid := true }

/-- Witness for the create-classroom theorem at a concrete state. -/
theorem create_class_witness :
    ∃ c : ClassRoom,
      (createClass dbC1 7 reqC1).1.classrooms = dbC1.classrooms ++ [c] ∧
      (createClass dbC1 7 reqC1).1.class_members = dbC1.class_members ++
        [{ id := dbC1.next_class_member_id, user_id := 7, class_id := c.id,
           role := CMRole.TEACHER, status := CMStatus.ACCEPTED }] :=
  create_class_adds_single_teacher_membership dbC1 7 reqC1 (by rfl)

/-- The classroom joined in the join examples. -/
def roomC2 : ClassRoom :=
  { id := 1, class_code := "cc", course_name := "CS", sections := "A"
    schedule := "MWF", invited_users := [] }

/-- A state where user 5 already holds a membership for the classroom with
code "cc". -/
def dbC2a : DB :=
  { users := [{ id := 5, email := "s@x.y", first_name := "S"
                last_name := "T", is_superuser := false }]
    classrooms := [roomC2]
    class_members := [{ id := 1, user_id := 5, class_id := 1
                        role := CMRole.STUDENT, status := CMStatus.PENDING }]
    team_members := []
    next_classroom_id := 2
    next_class_member_id := 2 }

/-- A state where user 5 holds no membership for the classroom with code
"cc". -/
def dbC2b : DB :=
  { users := [{ id := 5, email := "s@x.y", first_name := "S"
                last_name := "T", is_superuser := false }]
    classrooms := [roomC2]
    class_members := []
    team_members := []
    next_classroom_id := 2
    next_class_member_id := 1 }

/-- Witness for the join idempotence theorem at concrete states: an
existing membership gives 200 without mutation, a fresh join inserts the
single STUDENT/PENDING row, and joining twice equals joining once. -/
theorem join_membership_idempotent_witness :
    join dbC2a 5 "cc" = (dbC2a, 200) ∧
    join dbC2b 5 "cc" =
      ({ dbC2b with
         class_members := dbC2b.class_members ++
           [{ id := dbC2b.next_class_member_id, user_id := 5,
              class_id := roomC2.id, role := CMRole.STUDENT,
              status := CMStatus.PENDING }]
         next_class_member_id := dbC2b.next_class_member_id + 1 }, 200) ∧
    (join (join dbC2b 5 "cc").1 5 "cc").1 = (join dbC2b 5 "cc").1 :=
  ⟨(join_membership_idempotent dbC2a 5 "cc").1 (by decide),
   (join_membership_idempotent dbC2b 5 "cc").2.1 (by decide) roomC2 (by decide),
   (join_membership_idempotent dbC2b 5 "cc").2.2⟩

/-- The classroom joined in the guest-join example. -/
def roomC6 : ClassRoom :=
  { id := 1, class_code := "gg", course_name := "CS", sections := "A"
    schedule := "MWF", invited_users := [] }

/-- A state where user 5 holds no membership for the classroom with code
"gg". -/
def dbC6 : DB :=
  { users := [{ id := 5, email := "g@x.y", first_name := "G"
                last_name := "H", is_superuser := false }]
    classrooms := [roomC6]
    class_members := []
    team_members := []
    next_classroom_id := 2
    next_class_member_id := 1 }

/-- Witness for the guest-join theorem: joining with user_role 1 inserts a
single PENDING membership row with role selected by `guestRole`. -/
theorem join_class_as_guest_witness :
    join_class_as_guest dbC6 5 "gg" (some 1) =
      ({ dbC6 with
         class_members := dbC6.class_members ++
           [{ id := dbC6.next_class_member_id, user_id := 5,
              class_id := roomC6.id, role := guestRole (some 1),
              status := CMStatus.PENDING }]
         next_class_member_id := dbC6.next_class_member_id + 1 }, 200) :=
  (join_class_as_guest_role_selection dbC6 5 "gg" (some 1) roomC6
    (by decide) (by decide)).2.1 (by decide)

/-- The user of the invitation examples. -/
def userC7 : User :=
  { id := 3, email := "u@x.y", first_name := "U", last_name := "V"
    is_superuser := false }

/-- A state where user 3 is invited to two classrooms, with a PENDING
membership in the first and an ACCEPTED membership in the second, and
where user 4 is invited nowhere. -/
def dbC7 : DB :=
  { users := [userC7,
              { id := 4, email := "w@x.y", first_name := "W"
                last_name := "X", is_superuser := false }]
    classrooms := [{ id := 1, class_code := "k1", course_name := "CS"
                     sections := "A", schedule := "M", invited_users := [3] },
                   { id := 2, class_code := "k2", course_name := "CS"
                     sections := "A", schedule := "M", invited_users := [3] }]
    class_members := [{ id := 1, user_id := 3, class_id := 1
                        role := CMRole.STUDENT, status := CMStatus.PENDING },
                      { id := 2, user_id := 3, class_id := 2
                        role := CMRole.STUDENT, status := CMStatus.ACCEPTED }]
    team_members := []
    next_classroom_id := 3
    next_class_member_id := 3 }

/-- Witness for the invitation set-difference theorem at a concrete state. -/
theorem get_invited_classes_set_diff_witness :
    (get_invited_classes dbC7 "u@x.y").2 = invitedNotMember dbC7 userC7.id ∧
    (∀ c : ClassRoom, c ∈ invitedNotMember dbC7 userC7.id ↔
      c ∈ dbC7.classrooms ∧ userC7.id ∈ c.invited_users ∧
        ¬ ∃ m ∈ dbC7.class_members, m.user_id = userC7.id ∧
          m.class_id = c.id ∧ m.status = CMStatus.ACCEPTED) :=
  get_invited_classes_set_diff dbC7 "u@x.y" userC7 (by decide) (by decide)

/-- The second user of the invitation examples, invited to no classroom. -/
def userC10 : User :=
  { id := 4, email := "w@x.y", first_name := "W", last_name := "X"
    is_superuser := false }

/-- Witness for the empty-gives-404 theorem: the user invited nowhere gets
status 404. -/
theorem get_invited_classes_empty_is_404_witness :
    (get_invited_classes dbC7 "w@x.y").1 = 404 :=
  (get_invited_classes_empty_is_404 dbC7 "w@x.y" userC10
    (by decide) (by decide)).2 (by decide)

/-- Witness for the exception-mapping theorem at a concrete exceptional
outcome. -/
theorem leaders_nonleaders_exception_mapping_witness :
    ((nonleadersRespond (Except.error (QueryExc.other "boom"))).statusCode = 404 ∨
      (nonleadersRespond (Except.error (QueryExc.other "boom"))).statusCode = 500) ∧
    ((leadersRespond (Except.error (QueryExc.other "boom"))).statusCode = 404 ∨
      (leadersRespond (Except.error (QueryExc.other "boom"))).statusCode = 500) :=
  (leaders_nonleaders_exception_mapping
    (Except.error (QueryExc.other "boom"))).2.2 (QueryExc.other "boom") rfl

/-- The non-superuser of the list example. -/
def userC9 : User :=
  { id := 3, email := "u@y.z", first_name := "U", last_name := "V"
    is_superuser := false }

/-- A classroom where user 3 has an ACCEPTED membership. -/
def roomC9 : ClassRoom :=
  { id := 1, class_code := "q1", course_name := "CS", sections := "A"
    schedule := "M", invited_users := [] }

/-- A state with two classrooms, user 3 being ACCEPTED in the first and
PENDING in the second. -/
def dbC9 : DB :=
  { users := [userC9]
    classrooms := [roomC9,
                   { id := 2, class_code := "q2", course_name := "CS"
                     sections := "A", schedule := "M", invited_users := [] }]
    class_members := [{ id := 1, user_id := 3, class_id := 1
                        role := CMRole.STUDENT, status := CMStatus.ACCEPTED },
                      { id := 2, user_id := 3, class_id := 2
                        role := CMRole.STUDENT, status := CMStatus.PENDING }]
    team_members := []
    next_classroom_id := 3
    next_class_member_id := 3 }

/-- Witness for the list theorem: for the non-superuser the membership
characterisation holds at a concrete classroom. -/
theorem list_classes_membership_witness :
    roomC9 ∈ listClasses dbC9 userC9 ↔ roomC9 ∈ dbC9.classrooms ∧
      ∃ m ∈ dbC9.class_members, m.user_id = userC9.id ∧
        m.class_id = roomC9.id ∧ m.status = CMStatus.ACCEPTED :=
  (list_classes_membership dbC9 userC9 roomC9).1 (by decide)

end WildForge
